import Mathlib

/-!
Shallow embedding of `src/lib/server/shop/getTickets.ts`.

This file embeds the ticket-projection service of the shop module:
the Prisma query shape built by `ticketIncludedFields`, the pure
projection `formatTicket`, and the lookup/listing operations
`getTicket` / `getTickets`.

Conventions of the embedding:
* JavaScript `Date` values are modelled as `Int` (milliseconds since
  epoch, the value of `Date.prototype.valueOf`); `new Date()` at query
  time is modelled by an explicit `now : Int` parameter.
* Nullable columns are `Option`.
* The Prisma client over the relational store is modelled by rows that
  own their related rows: a `ShoppableRow` carries the full lists of
  `Consumable` and `ConsumableReservation` rows of the whole system,
  and the `include` step computes the loaded payload from them exactly
  as the `where` clauses of `ticketIncludedFields` prescribe.
-/

/-- A `Consumable` row: a unit claimed against a Shoppable by an
identity.  `owner` models the identity-ownership columns matched by
`dbIdentification`; `purchasedAt` is null while the item is only in the
cart; `expiresAt` is the cart-hold expiry. -/
structure Consumable where
  owner : Nat
  purchasedAt : Option Int
  expiresAt : Option Int
deriving Repr, DecidableEq

/-- A `ConsumableReservation` row: a queue entry for a Shoppable.
`order` is the queue position; non-null means committed to the queue. -/
structure ConsumableReservation where
  owner : Nat
  order : Option Int
deriving Repr, DecidableEq

/-- The scalar columns of a `Shoppable` row. -/
structure ShoppableScalars where
  id : Nat
  price : Int
  availableFrom : Int
  availableTo : Option Int
  removedAt : Option Int
  stock : Int
deriving Repr, DecidableEq

/-- A `Shoppable` row together with all `Consumable` and
`ConsumableReservation` rows (of every user) that reference it. -/
structure ShoppableRow extends ShoppableScalars where
  consumables : List Consumable
  reservations : List ConsumableReservation
deriving Repr, DecidableEq

/-- An `Event` row with its tags, as included by `event: { include: { tags: true } }`. -/
structure EventRec where
  id : Nat
  startDatetime : Int
  tags : List Nat
deriving Repr, DecidableEq

/-- A `Ticket` row: the specialization of `Shoppable` for event
admission, with its `Shoppable` and `Event` rows. -/
structure TicketRow where
  id : Nat
  eventId : Nat
  maxAmountPerUser : Int
  shoppable : ShoppableRow
  event : EventRec
deriving Repr, DecidableEq

/-- Modelled from the spec: `GRACE_PERIOD_WINDOW` is defined in
`src/lib/server/shop/types.ts`, which is not part of the sources; the
spec says only that it is a fixed constant duration.  Its numeric value
(modelled here as 30 minutes in milliseconds) is irrelevant to every
claim below. -/
def GRACE_PERIOD_WINDOW : Int := 1800000

/-- Modelled from the spec: `dbIdentification`
(`src/lib/server/shop/types.ts`, not part of the sources) resolves a
requester identity (member id or anonymous session id) to an
ownership-match predicate used in the `Consumable`/`Reservation`
queries.  It is modelled as equality of the row's `owner` field with
the requester id. -/
def ownedBy (me : Nat) (owner : Nat) : Bool := owner == me

/-- The `where` clause of `consumables` in `ticketIncludedFields`
(getTickets.ts lines 38-47): the row belongs to the requester, and
`purchasedAt` is not null, or `expiresAt > now`, or `expiresAt` is
null. -/
def consumableKept (me : Nat) (now : Int) (c : Consumable) : Bool :=
  ownedBy me c.owner &&
    (c.purchasedAt.isSome ||
      (match c.expiresAt with
        | some e => decide (now < e)
        | none => false) ||
      c.expiresAt.isNone)

/-- The `_count` selection of `ticketIncludedFields` (lines 49-59):
number of bought consumables (any user, `purchasedAt` not null) and
number of committed reservations (any user, `order` not null). -/
structure CountSel where
  consumables : Nat
  reservations : Nat
deriving Repr, DecidableEq

/-- The loaded `shoppable` payload produced by `ticketIncludedFields`:
scalar columns, the requester's pre-filtered consumables, the
requester's reservations, and the system-wide `_count` aggregates. -/
structure ShoppableLoaded extends ShoppableScalars where
  consumables : List Consumable
  reservations : List ConsumableReservation
  _count : CountSel
deriving Repr, DecidableEq

/-- The ticket payload returned by the Prisma queries with
`include: ticketIncludedFields(dbId)` (`Prisma.TicketGetPayload`). -/
structure TicketFromPrisma where
  id : Nat
  eventId : Nat
  maxAmountPerUser : Int
  shoppable : ShoppableLoaded
  event : EventRec
deriving Repr, DecidableEq

/-- The `include: ticketIncludedFields(dbId)` step (lines 34-63)
applied to a ticket row: filters consumables to the requester's kept
ones, reservations to the requester's, and computes the `_count`
aggregates over all users' rows. -/
def includeTicketFields (me : Nat) (now : Int) (t : TicketRow) : TicketFromPrisma :=
  { id := t.id
    eventId := t.eventId
    maxAmountPerUser := t.maxAmountPerUser
    shoppable :=
      { t.shoppable.toShoppableScalars with
        consumables := t.shoppable.consumables.filter (consumableKept me now)
        reservations := t.shoppable.reservations.filter (fun r => ownedBy me r.owner)
        _count :=
          { consumables :=
              (t.shoppable.consumables.filter (fun c => c.purchasedAt.isSome)).length
            reservations :=
              (t.shoppable.reservations.filter (fun r => r.order.isSome)).length } }
    event := t.event }

/-- The `TicketWithMoreInfo` output shape (lines 20-32): ticket and
shoppable scalar fields, the event, the requester's lists, and the
derived fields.  The raw `consumables`, `reservations`, `shoppable`
and `_count` fields are absent from this shape, matching the
`delete` statements of lines 96-101. -/
structure TicketWithMoreInfo where
  id : Nat
  eventId : Nat
  maxAmountPerUser : Int
  price : Int
  availableFrom : Int
  availableTo : Option Int
  removedAt : Option Int
  stock : Int
  event : EventRec
  userItemsInCart : List Consumable
  userReservations : List ConsumableReservation
  gracePeriodEndsAt : Int
  isInUsersCart : Bool
  userAlreadyHasMax : Bool
  ticketsLeft : Int
  hasQueue : Bool
deriving Repr, DecidableEq

/-- `formatTicket` (lines 68-102), value level: spreads the shoppable
and ticket scalars and computes the derived fields exactly as the
source does.  JavaScript note: `!c.purchasedAt` is true exactly when
`purchasedAt` is null (a `Date` object is always truthy). -/
def formatTicket (t : TicketFromPrisma) : TicketWithMoreInfo :=
  { id := t.id
    eventId := t.eventId
    maxAmountPerUser := t.maxAmountPerUser
    price := t.shoppable.price
    availableFrom := t.shoppable.availableFrom
    availableTo := t.shoppable.availableTo
    removedAt := t.shoppable.removedAt
    stock := t.shoppable.stock
    event := t.event
    userItemsInCart := t.shoppable.consumables
    userReservations := t.shoppable.reservations
    gracePeriodEndsAt := t.shoppable.availableFrom + GRACE_PERIOD_WINDOW
    isInUsersCart :=
      decide (0 < (t.shoppable.consumables.filter (fun c => c.purchasedAt.isNone)).length) ||
        decide (0 < t.shoppable.reservations.length)
    userAlreadyHasMax :=
      decide (t.maxAmountPerUser ≤
        ((t.shoppable.consumables.filter (fun c => c.purchasedAt.isSome)).length : Int))
    ticketsLeft := min (t.shoppable.stock - (t.shoppable._count.consumables : Int)) 10
    hasQueue := decide (0 < t.shoppable._count.reservations) }

/-- `getTicket` (lines 104-118): `findFirst` on the ticket id; `null`
(here `none`) when no ticket matches, otherwise the projection of the
first match. -/
def getTicket (db : List TicketRow) (tid : Nat) (me : Nat) (now : Int) :
    Option TicketWithMoreInfo :=
  match db.find? (fun t => t.id == tid) with
  | none => none
  | some t => some (formatTicket (includeTicketFields me now t))

/-- `dayjs().subtract(10, "days")` offset in milliseconds. -/
def TEN_DAYS_MS : Int := 10 * 24 * 60 * 60 * 1000

/-- The `where` clause of `getTickets` (lines 133-143):
(`removedAt` is null OR `removedAt < now`) AND
(`availableTo` is null OR `availableTo > now - 10 days`).
In SQL a comparison against a null column is false, so a null column
matches only its explicit null branch. -/
def shoppableListFilter (now : Int) (s : ShoppableRow) : Bool :=
  (s.removedAt.isNone ||
      (match s.removedAt with
        | some r => decide (r < now)
        | none => false)) &&
    (s.availableTo.isNone ||
      (match s.availableTo with
        | some a => decide (now - TEN_DAYS_MS < a)
        | none => false))

/-- `getTickets` (lines 126-150): filter by `shoppableListFilter`,
order ascending by `shoppable.availableFrom` (the database's stable
sort is modelled by insertion sort), project each result with
`formatTicket`. -/
def getTickets (db : List TicketRow) (me : Nat) (now : Int) :
    List TicketWithMoreInfo :=
  ((db.filter (fun t => shoppableListFilter now t.shoppable)).insertionSort
      (fun a b => a.shoppable.availableFrom ≤ b.shoppable.availableFrom)).map
    (fun t => formatTicket (includeTicketFields me now t))


/-!
Object-level model of `formatTicket`.

`formatTicket` builds a JavaScript object by spreading
`ticket.shoppable` and `ticket` into an object literal together with
the derived properties, and then `delete`s the `consumables`,
`reservations`, `shoppable` and `_count` properties (lines 69-101).
The claims about field presence and stripping are about the object's
keys, so the object is modelled as an association list from property
names to values, with JavaScript spread and delete semantics.  The
property names occurring in these objects form a finite set, modelled
by the inductive `PropName`. -/

/-- The property names of the ticket payload and projection objects. -/
inductive PropName where
  | id
  | eventId
  | maxAmountPerUser
  | shoppable
  | event
  | price
  | availableFrom
  | availableTo
  | removedAt
  | stock
  | consumables
  | reservations
  | _count
  | userItemsInCart
  | userReservations
  | gracePeriodEndsAt
  | isInUsersCart
  | userAlreadyHasMax
  | ticketsLeft
  | hasQueue
deriving Repr, DecidableEq

/-- The values a property of the ticket objects can hold. -/
inductive JsVal where
  | int : Int → JsVal
  | bool : Bool → JsVal
  | optInt : Option Int → JsVal
  | consumableList : List Consumable → JsVal
  | reservationList : List ConsumableReservation → JsVal
  | counts : CountSel → JsVal
  | eventVal : EventRec → JsVal
  | obj : List (PropName × JsVal) → JsVal

/-- A JavaScript object: an association list of properties. -/
abbrev JsObj := List (PropName × JsVal)

/-- Setting a property: removes any previous binding of the key and
appends the new one. -/
def objSet (o : JsObj) (k : PropName) (v : JsVal) : JsObj :=
  o.filter (fun p => p.1 != k) ++ [(k, v)]

/-- The spread `{ ...a, ...b }`: each property of `b` overwrites the
corresponding property of `a`. -/
def objSpread (a b : JsObj) : JsObj :=
  b.foldl (fun acc kv => objSet acc kv.1 kv.2) a

/-- The statement `delete o.k`. -/
def objDelete (o : JsObj) (k : PropName) : JsObj :=
  o.filter (fun p => p.1 != k)

/-- Property access `o.k`, `none` when the property is absent. -/
def objGet (o : JsObj) (k : PropName) : Option JsVal :=
  List.lookup k o

/-- The loaded `shoppable` payload as a JavaScript object: scalar
columns plus the included `consumables`, `reservations` and `_count`
properties. -/
def shoppableLoadedJs (s : ShoppableLoaded) : JsObj :=
  [(.id, .int s.id),
   (.price, .int s.price),
   (.availableFrom, .int s.availableFrom),
   (.availableTo, .optInt s.availableTo),
   (.removedAt, .optInt s.removedAt),
   (.stock, .int s.stock),
   (.consumables, .consumableList s.consumables),
   (.reservations, .reservationList s.reservations),
   (._count, .counts s._count)]

/-- The loaded ticket payload as a JavaScript object: scalar columns
plus the nested `shoppable` and `event` objects. -/
def ticketLoadedJs (t : TicketFromPrisma) : JsObj :=
  [(.id, .int t.id),
   (.eventId, .int t.eventId),
   (.maxAmountPerUser, .int t.maxAmountPerUser),
   (.shoppable, .obj (shoppableLoadedJs t.shoppable)),
   (.event, .eventVal t.event)]

/-- `formatTicket` (lines 68-102) at the object level: the literal
`{ ...ticket.shoppable, ...ticket, userItemsInCart: ..., ...,
hasQueue: ... }` followed by the four `delete` statements of lines
96-101.  The derived values are the same expressions as in
`formatTicket`. -/
def formatTicketJs (t : TicketFromPrisma) : JsObj :=
  objDelete (objDelete (objDelete (objDelete
    (objSpread (objSpread (shoppableLoadedJs t.shoppable) (ticketLoadedJs t))
      [(.userItemsInCart, .consumableList t.shoppable.consumables),
       (.userReservations, .reservationList t.shoppable.reservations),
       (.gracePeriodEndsAt, .int (t.shoppable.availableFrom + GRACE_PERIOD_WINDOW)),
       (.isInUsersCart, .bool
          (decide (0 < (t.shoppable.consumables.filter
              (fun c => c.purchasedAt.isNone)).length) ||
            decide (0 < t.shoppable.reservations.length))),
       (.userAlreadyHasMax, .bool
          (decide (t.maxAmountPerUser ≤
            ((t.shoppable.consumables.filter
                (fun c => c.purchasedAt.isSome)).length : Int)))),
       (.ticketsLeft, .int
          (min (t.shoppable.stock - (t.shoppable._count.consumables : Int)) 10)),
       (.hasQueue, .bool (decide (0 < t.shoppable._count.reservations)))])
    .consumables) .reservations) .shoppable) ._count

/-!
Concrete sample rows used by the evaluation parts of the theorems.
-/

/-- A concrete "now" timestamp (milliseconds). -/
def nowSample : Int := 1700000000000

/-- A sample event row. -/
def eventSample : EventRec := { id := 7, startDatetime := 0, tags := [] }

/-- A sample shoppable: not removed, no end of availability, stock 5,
no consumables or reservations. -/
def baseShoppable : ShoppableRow :=
  { id := 1, price := 100, availableFrom := 0, availableTo := none,
    removedAt := none, stock := 5, consumables := [], reservations := [] }

/-- A sample ticket over `baseShoppable` with `maxAmountPerUser = 2`. -/
def baseTicket : TicketRow :=
  { id := 11, eventId := 7, maxAmountPerUser := 2, shoppable := baseShoppable,
    event := eventSample }

/-- `baseTicket` whose shoppable was soft-removed one second before `nowSample`. -/
def removedPastTicket : TicketRow :=
  { baseTicket with shoppable := { baseShoppable with removedAt := some (nowSample - 1000) } }

/-- `baseTicket` whose shoppable has `removedAt` one second after `nowSample`. -/
def removedFutureTicket : TicketRow :=
  { baseTicket with shoppable := { baseShoppable with removedAt := some (nowSample + 1000) } }

/-- `baseTicket` oversold: stock 1 but three purchased consumables. -/
def oversoldTicket : TicketRow :=
  { baseTicket with shoppable :=
      { baseShoppable with
        stock := 1
        consumables :=
          [{ owner := 1, purchasedAt := some 10, expiresAt := none },
           { owner := 2, purchasedAt := some 20, expiresAt := none },
           { owner := 3, purchasedAt := some 30, expiresAt := none }] } }

/-- `baseTicket` where requester 0 has two purchased consumables. -/
def maxTwoPurchased : TicketRow :=
  { baseTicket with shoppable :=
      { baseShoppable with
        consumables :=
          [{ owner := 0, purchasedAt := some 10, expiresAt := none },
           { owner := 0, purchasedAt := some 20, expiresAt := none }] } }

/-- `baseTicket` where requester 0 has one purchased consumable. -/
def maxOnePurchased : TicketRow :=
  { baseTicket with shoppable :=
      { baseShoppable with
        consumables := [{ owner := 0, purchasedAt := some 10, expiresAt := none }] } }

/-- `baseTicket` whose `availableTo` ended 11 days before `nowSample`. -/
def availPast11Ticket : TicketRow :=
  { baseTicket with shoppable :=
      { baseShoppable with availableTo := some (nowSample - 11 * 24 * 60 * 60 * 1000) } }

/-- `baseTicket` whose `availableTo` ended 5 days before `nowSample`. -/
def availPast5Ticket : TicketRow :=
  { baseTicket with shoppable :=
      { baseShoppable with availableTo := some (nowSample - 5 * 24 * 60 * 60 * 1000) } }

/-- `baseTicket` whose `availableTo` is one second after `nowSample`. -/
def availFutureTicket : TicketRow :=
  { baseTicket with shoppable :=
      { baseShoppable with availableTo := some (nowSample + 1000) } }

/-!
Helper lemmas about the object operations and the listing operation.
-/

/-- Looking a key up after filtering that key out yields nothing. -/
theorem lookup_filter_self (k : PropName) (o : List (PropName × JsVal)) :
    List.lookup k (o.filter (fun p => p.1 != k)) = none := by
  induction o with
  | nil => rfl
  | cons p o ih =>
      rcases p with ⟨a, v⟩
      by_cases h : a = k
      · simp [List.filter_cons, h, ih]
      · have hb : (k == a) = false := by simp [Ne.symm h]
        simp [List.filter_cons, List.lookup_cons, h, hb, ih]

/-- Filtering out a different key does not change a lookup. -/
theorem lookup_filter_ne (k k' : PropName) (h : k ≠ k') (o : List (PropName × JsVal)) :
    List.lookup k (o.filter (fun p => p.1 != k')) = List.lookup k o := by
  induction o with
  | nil => rfl
  | cons p o ih =>
      rcases p with ⟨a, v⟩
      by_cases ha : a = k'
      · subst ha
        have hb : (k == a) = false := by simp [h]
        simp [List.filter_cons, List.lookup_cons, hb, ih]
      · by_cases hk : a = k
        · subst hk
          simp [List.filter_cons, List.lookup_cons, ha]
        · have hb : (k == a) = false := by simp [Ne.symm hk]
          simp [List.filter_cons, List.lookup_cons, ha, hb, ih]

/-- A deleted property is absent. -/
theorem objGet_objDelete_self (o : JsObj) (k : PropName) : objGet (objDelete o k) k = none :=
  lookup_filter_self k o

/-- Deleting one property leaves the others unchanged. -/
theorem objGet_objDelete_ne (o : JsObj) {k k' : PropName} (h : k ≠ k') :
    objGet (objDelete o k') k = objGet o k :=
  lookup_filter_ne k k' h o

/-- A property that was just set is present with its value. -/
theorem objGet_objSet_self (o : JsObj) (k : PropName) (v : JsVal) :
    objGet (objSet o k v) k = some v := by
  unfold objSet objGet
  induction o with
  | nil => simp [List.lookup_cons]
  | cons p o ih =>
      rcases p with ⟨a, v'⟩
      by_cases h : a = k
      · simpa [List.filter_cons, h] using ih
      · have hb : (k == a) = false := by simp [Ne.symm h]
        simpa [List.filter_cons, List.lookup_cons, h, hb] using ih

/-- Setting one property leaves the others unchanged. -/
theorem objGet_objSet_ne (o : JsObj) {k k' : PropName} (v : JsVal) (h : k ≠ k') :
    objGet (objSet o k' v) k = objGet o k := by
  unfold objSet objGet
  induction o with
  | nil =>
      have hb : (k == k') = false := by simp [h]
      simp [List.lookup_cons, hb]
  | cons p o ih =>
      rcases p with ⟨a, v'⟩
      by_cases ha : a = k'
      · subst ha
        have hb : (k == a) = false := by simp [h]
        simpa [List.filter_cons, List.lookup_cons, hb] using ih
      · by_cases hk : a = k
        · subst hk
          simp [List.filter_cons, List.lookup_cons, ha]
        · have hb : (k == a) = false := by simp [Ne.symm hk]
          simpa [List.filter_cons, List.lookup_cons, ha, hb] using ih

/-- Membership in the result of `getTickets`: exactly the projections
of the database rows that pass the listing filter (the sort only
reorders). -/
theorem mem_getTickets (db : List TicketRow) (me : Nat) (now : Int)
    (x : TicketWithMoreInfo) :
    x ∈ getTickets db me now ↔
      ∃ t, t ∈ db ∧ shoppableListFilter now t.shoppable = true ∧
        x = formatTicket (includeTicketFields me now t) := by
  unfold getTickets
  simp only [List.mem_map, List.mem_insertionSort, List.mem_filter]
  constructor
  · rintro ⟨t, ⟨ht, hf⟩, hx⟩
    exact ⟨t, ht, hf, hx.symm⟩
  · rintro ⟨t, ht, hf, hx⟩
    exact ⟨t, ⟨ht, hf⟩, hx.symm⟩

/-!
The claims.
-/

/-- Claim C1: the spec says a ticket whose Shoppable has a past
`removedAt` is excluded from the listing, and one with a null or
future `removedAt` is included.  The code's filter (line 136,
`removedAt: { lt: new Date() }`) does the opposite for non-null
`removedAt`: evaluated at a concrete database, `getTickets` returns a
ticket soft-removed in the past and drops a ticket whose `removedAt`
lies in the future. -/
theorem getTickets_removedAt_filter_inverted :
    getTickets [removedPastTicket] 0 nowSample =
      [formatTicket (includeTicketFields 0 nowSample removedPastTicket)] ∧
    getTickets [removedFutureTicket] 0 nowSample = [] := by decide

/-- Claim C2: `ticketsLeft` equals `min (stock - purchased count across
all users) 10`; hence it is at most 10, exactly 10 when the remaining
stock is at least 10, the exact remaining count when below 10, and it
is not clamped below zero (on the concrete oversold ticket with stock
1 and three purchases it is -2). -/
theorem ticketsLeft_min_stock_cap :
    (∀ (me : Nat) (now : Int) (t : TicketRow),
        (formatTicket (includeTicketFields me now t)).ticketsLeft =
          min (t.shoppable.stock -
            ((t.shoppable.consumables.filter (fun c => c.purchasedAt.isSome)).length : Int)) 10 ∧
        (formatTicket (includeTicketFields me now t)).ticketsLeft ≤ 10 ∧
        (10 ≤ t.shoppable.stock -
            ((t.shoppable.consumables.filter (fun c => c.purchasedAt.isSome)).length : Int) →
          (formatTicket (includeTicketFields me now t)).ticketsLeft = 10) ∧
        (t.shoppable.stock -
            ((t.shoppable.consumables.filter (fun c => c.purchasedAt.isSome)).length : Int) < 10 →
          (formatTicket (includeTicketFields me now t)).ticketsLeft =
            t.shoppable.stock -
              ((t.shoppable.consumables.filter (fun c => c.purchasedAt.isSome)).length : Int))) ∧
    (formatTicket (includeTicketFields 0 nowSample oversoldTicket)).ticketsLeft = -2 := by
  refine ⟨?_, by decide⟩
  intro me now t
  refine ⟨rfl, ?_, ?_, ?_⟩ <;>
    simp only [formatTicket, includeTicketFields, Int.min_def] <;>
    split <;> omega

/-- Claim C3: for every input, the object returned by `formatTicket`
has no `consumables`, `reservations`, `_count` (or `shoppable`)
property: the raw per-user lists and raw aggregate counts are
stripped. -/
theorem formatTicketJs_strips_raw_fields (t : TicketFromPrisma) :
    objGet (formatTicketJs t) .consumables = none ∧
    objGet (formatTicketJs t) .reservations = none ∧
    objGet (formatTicketJs t) ._count = none ∧
    objGet (formatTicketJs t) .shoppable = none := by
  refine ⟨?_, ?_, ?_, ?_⟩ <;>
    simp [formatTicketJs, objGet_objDelete_ne, objGet_objDelete_self]

/-- Claim C4: `isInUsersCart` is true iff the requester's pre-filtered
consumable list has an entry with null `purchasedAt`, or the
requester's reservation list is nonempty. -/
theorem isInUsersCart_iff_cart_or_reservation (me : Nat) (now : Int) (t : TicketRow) :
    (formatTicket (includeTicketFields me now t)).isInUsersCart = true ↔
      ((∃ c ∈ t.shoppable.consumables.filter (consumableKept me now), c.purchasedAt = none) ∨
        t.shoppable.reservations.filter (fun r => ownedBy me r.owner) ≠ []) := by
  simp [formatTicket, includeTicketFields, List.length_pos, List.filter_eq_nil_iff,
    Option.isNone_iff_eq_none]
  aesop

/-- Claim C5: `userAlreadyHasMax` is true iff the requester's count of
purchased consumables (non-null `purchasedAt`) is at least
`maxAmountPerUser`; in particular with `maxAmountPerUser = 2` a
requester with two purchased consumables gets `true` and one with a
single purchase gets `false`. -/
theorem userAlreadyHasMax_iff_purchased_ge_max :
    (∀ (me : Nat) (now : Int) (t : TicketRow),
        (formatTicket (includeTicketFields me now t)).userAlreadyHasMax = true ↔
          t.maxAmountPerUser ≤
            ((t.shoppable.consumables.filter
                (fun c => ownedBy me c.owner && c.purchasedAt.isSome)).length : Int)) ∧
    (formatTicket (includeTicketFields 0 nowSample maxTwoPurchased)).userAlreadyHasMax = true ∧
    (formatTicket (includeTicketFields 0 nowSample maxOnePurchased)).userAlreadyHasMax = false := by
  refine ⟨?_, by decide, by decide⟩
  intro me now t
  have hf : (t.shoppable.consumables.filter (consumableKept me now)).filter
        (fun c => c.purchasedAt.isSome) =
      t.shoppable.consumables.filter (fun c => ownedBy me c.owner && c.purchasedAt.isSome) := by
    rw [List.filter_filter]
    refine List.filter_congr ?_
    intro c _
    cases hp : c.purchasedAt.isSome <;> cases ho : ownedBy me c.owner <;>
      simp [consumableKept, hp, ho]
  simp [formatTicket, includeTicketFields, hf]

/-- Claim C6: `hasQueue` is true iff at least one reservation of any
user on the ticket's shoppable has a non-null `order`. -/
theorem hasQueue_iff_committed_reservation (me : Nat) (now : Int) (t : TicketRow) :
    (formatTicket (includeTicketFields me now t)).hasQueue = true ↔
      ∃ r ∈ t.shoppable.reservations, r.order ≠ none := by
  simp [formatTicket, includeTicketFields, List.length_pos, List.filter_eq_nil_iff,
    Option.isSome_iff_ne_none]

/-- Claim C7: every ticket returned by `getTickets` has `availableTo`
null or later than `now` minus ten days; conversely a database row
that passes the `removedAt` branch of the filter and has `availableTo`
null or later than ten days ago is listed.  Concretely, a ticket whose
`availableTo` ended eleven days ago is excluded, while tickets whose
`availableTo` ended five days ago, is null, or lies in the future are
included. -/
theorem getTickets_availableTo_window :
    (∀ (db : List TicketRow) (me : Nat) (now : Int),
        ∀ x ∈ getTickets db me now,
          x.availableTo = none ∨ ∃ a, x.availableTo = some a ∧ now - TEN_DAYS_MS < a) ∧
    (∀ (db : List TicketRow) (me : Nat) (now : Int), ∀ t ∈ db,
        (t.shoppable.removedAt = none ∨ ∃ r, t.shoppable.removedAt = some r ∧ r < now) →
        (t.shoppable.availableTo = none ∨
          ∃ a, t.shoppable.availableTo = some a ∧ now - TEN_DAYS_MS < a) →
        formatTicket (includeTicketFields me now t) ∈ getTickets db me now) ∧
    getTickets [availPast11Ticket] 0 nowSample = [] ∧
    getTickets [availPast5Ticket] 0 nowSample =
      [formatTicket (includeTicketFields 0 nowSample availPast5Ticket)] ∧
    getTickets [baseTicket] 0 nowSample =
      [formatTicket (includeTicketFields 0 nowSample baseTicket)] ∧
    getTickets [availFutureTicket] 0 nowSample =
      [formatTicket (includeTicketFields 0 nowSample availFutureTicket)] := by
  refine ⟨?_, ?_, by decide, by decide, by decide, by decide⟩
  · intro db me now x hx
    obtain ⟨t, ht, hf, rfl⟩ := (mem_getTickets db me now x).1 hx
    rw [shoppableListFilter, Bool.and_eq_true] at hf
    obtain ⟨hrem, hav⟩ := hf
    cases ha : t.shoppable.availableTo with
    | none =>
        left
        simp [formatTicket, includeTicketFields, ha]
    | some a =>
        right
        refine ⟨a, ?_, ?_⟩
        · simp [formatTicket, includeTicketFields, ha]
        · rw [ha] at hav
          simpa using hav
  · intro db me now t ht h1 h2
    refine (mem_getTickets db me now _).2 ⟨t, ht, ?_, rfl⟩
    rw [shoppableListFilter, Bool.and_eq_true]
    constructor
    · rcases h1 with h | ⟨r, hr, hlt⟩
      · simp [h]
      · simp [hr, hlt]
    · rcases h2 with h | ⟨a, ha, hgt⟩
      · simp [h]
      · simp [ha, hgt]

/-- Claim C8: `gracePeriodEndsAt` is exactly the shoppable's
`availableFrom` plus the fixed constant `GRACE_PERIOD_WINDOW`. -/
theorem gracePeriodEndsAt_eq_availableFrom_add_window (me : Nat) (now : Int) (t : TicketRow) :
    (formatTicket (includeTicketFields me now t)).gracePeriodEndsAt =
      t.shoppable.availableFrom + GRACE_PERIOD_WINDOW := rfl

/-- Claim C9: when no ticket in the database carries the requested id,
`getTicket` returns the explicit no-result value `none` rather than
failing; when the lookup finds a ticket, `getTicket` returns its
projection. -/
theorem getTicket_not_found_returns_none :
    (∀ (db : List TicketRow) (tid me : Nat) (now : Int),
        (∀ t ∈ db, t.id ≠ tid) → getTicket db tid me now = none) ∧
    (∀ (db : List TicketRow) (tid me : Nat) (now : Int) (t : TicketRow),
        db.find? (fun u => u.id == tid) = some t →
        getTicket db tid me now = some (formatTicket (includeTicketFields me now t))) := by
  constructor
  · intro db tid me now h
    unfold getTicket
    have hn : db.find? (fun u => u.id == tid) = none := by
      rw [List.find?_eq_none]
      intro t ht
      simp [h t ht]
    rw [hn]
  · intro db tid me now t hfind
    unfold getTicket
    rw [hfind]

/-- Claim C10: even though the raw `consumables` and `reservations`
properties are deleted, the projection still carries the requester's
own record lists: `userItemsInCart` holds the requester's pre-filtered
consumables and `userReservations` the requester's reservations, so
the output is not limited to public fields plus the derived values. -/
theorem formatTicketJs_contains_user_lists (me : Nat) (now : Int) (t : TicketRow) :
    objGet (formatTicketJs (includeTicketFields me now t)) .userItemsInCart =
      some (.consumableList (t.shoppable.consumables.filter (consumableKept me now))) ∧
    objGet (formatTicketJs (includeTicketFields me now t)) .userReservations =
      some (.reservationList (t.shoppable.reservations.filter (fun r => ownedBy me r.owner))) := by
  constructor <;>
    simp [formatTicketJs, objSpread, objGet_objDelete_ne, objGet_objSet_ne, objGet_objSet_self,
      includeTicketFields]
